import Mathlib

/-!
Shallow embedding of the Cura frontend (src/frontend/App.jsx).

The component keeps React state: `messages`, `input`, `sessionId`,
`avatarState`, `affect`, `affectState`, `debug`.  `handleSend` trims the
input, rejects an empty result, appends the user message, clears the
input, issues a POST to /api/chat, and on success stores the response
fields (on failure it appends an error bubble).  We model the fetch
outcome as data passed to a pure step function.
-/

/-- Message role: the frontend only ever writes "user" or "assistant". -/
inductive Role where
  | user
  | assistant
deriving DecidableEq, Repr

/-- A chat message as held in the `messages` state array. -/
structure Message where
  role : Role
  content : String
deriving DecidableEq, Repr

/-- The candidate expression set from App.jsx line 3. -/
def AVATAR_STATES : List String :=
  ["welcoming", "listening", "concerned", "supportive", "thinking"]

/-- The debug object a backend response may carry (the frontend only ever
reads its `affect_state` field; other keys are kept opaque). -/
structure DebugPayload where
  affect_state : Option String := none
  extra : List (String × String) := []
deriving DecidableEq, Repr

/-- The `{}` written by `setDebug(data.debug || {})` when `data.debug` is falsy. -/
def emptyDebug : DebugPayload := {}

/-- The JSON body the frontend reads from a successful /api/chat response:
`data.session_id`, `data.reply`, `data.avatar_state`, `data.debug`.
Absent fields are `none`. -/
structure ChatResponse where
  session_id : Option String
  reply : String
  avatar_state : Option String
  debug : Option DebugPayload
deriving DecidableEq, Repr

/-- The JSON body `handleSend` sends: `{session_id, user_message, affect, avatar_state}`. -/
structure ChatRequest where
  session_id : Option String
  user_message : String
  affect : String
  avatar_state : String
deriving DecidableEq, Repr

/-- JavaScript truthiness of an optional string: absent, null and "" are falsy. -/
def jsTruthy : Option String → Bool
  | none => false
  | some t => t ≠ ""

/-- Strip whitespace from both ends of a character list. -/
def trimChars (l : List Char) : List Char :=
  ((l.dropWhile Char.isWhitespace).reverse.dropWhile Char.isWhitespace).reverse

/-- Embedding of JavaScript String.prototype.trim: remove leading and
trailing whitespace.  Defined structurally over the character data so it
is kernel-computable. -/
def jsTrim (s : String) : String :=
  ⟨trimChars s.data⟩

/-- The React state of the App component. -/
structure AppState where
  messages : List Message
  input : String
  sessionId : Option String
  avatarState : String
  affect : String
  affectState : String
  debug : DebugPayload
deriving DecidableEq, Repr

/-- The initial greeting message seeded into `messages` by `useState`. -/
def greetingMessage : Message :=
  ⟨Role.assistant, "Hello, I\x27m Dr. Lane. What would you like to talk about today?"⟩

/-- The initial state of the component (the `useState` initializers). -/
def initialState : AppState :=
  { messages := [greetingMessage]
    input := ""
    sessionId := none
    avatarState := "welcoming"
    affect := "a little tense but open"
    affectState := "emotionally neutral"
    debug := emptyDebug }

/-- Outcome of the fetch: either a parsed JSON body, or a thrown error
(stringified by the template literal in the catch block). -/
inductive FetchOutcome where
  | success (data : ChatResponse)
  | failure (err : String)
deriving DecidableEq, Repr

/-- The error bubble text built in the catch block. -/
def errorText (err : String) : String :=
  "(Error contacting backend: " ++ err ++ ")"

/-- The state right after `setMessages(newMessages); setInput("")` and
before the fetch is issued: user message appended, input cleared. -/
def preFetchState (s : AppState) : AppState :=
  { s with
    messages := s.messages ++ [⟨Role.user, jsTrim s.input⟩]
    input := "" }

/-- The request body `handleSend` sends, or `none` when the guard
`if (!text) return` fires. -/
def requestOf (s : AppState) : Option ChatRequest :=
  if jsTrim s.input = "" then none
  else some ⟨s.sessionId, jsTrim s.input, s.affect, s.avatarState⟩

/-- The setters run in the try block on a successful response:
`setSessionId(data.session_id)`, append of the assistant reply,
`setAvatarState(data.avatar_state || avatarState)`,
`setDebug(data.debug || {})`, and the guarded `setAffectState`. -/
def applySuccess (s : AppState) (d : ChatResponse) : AppState :=
  { s with
    sessionId := d.session_id
    messages := s.messages ++ [⟨Role.assistant, d.reply⟩]
    avatarState := if jsTruthy d.avatar_state then d.avatar_state.getD "" else s.avatarState
    debug := d.debug.getD emptyDebug
    affectState :=
      match d.debug with
      | some dbg => if jsTruthy dbg.affect_state then dbg.affect_state.getD "" else s.affectState
      | none => s.affectState }

/-- The catch block: append a single assistant error bubble. -/
def applyFailure (s : AppState) (err : String) : AppState :=
  { s with messages := s.messages ++ [⟨Role.assistant, errorText err⟩] }

/-- One run of `handleSend` given the fetch outcome. -/
def handleSend (s : AppState) (o : FetchOutcome) : AppState :=
  if jsTrim s.input = "" then s
  else
    match o with
    | FetchOutcome.success d => applySuccess (preFetchState s) d
    | FetchOutcome.failure err => applyFailure (preFetchState s) err

/-- The avatar image source, App.jsx line 72. -/
def currentAvatarSrc (s : AppState) : String :=
  let a := s.avatarState
  s!"/avatars/{a}.png"

/-- User-interface events that mutate state: typing in the textarea,
clicking one of the avatar buttons (one per entry of AVATAR_STATES),
or sending a message (via button or Enter). -/
inductive Event where
  | typeInput (t : String)
  | clickAvatar (i : Fin AVATAR_STATES.length)
  | send (o : FetchOutcome)

/-- The state transition for one event. -/
def step (s : AppState) : Event → AppState
  | Event.typeInput t => { s with input := t }
  | Event.clickAvatar i => { s with avatarState := AVATAR_STATES.get i }
  | Event.send o => handleSend s o

/-- States reachable from the initial render by any sequence of events. -/
inductive Reachable : AppState → Prop where
  | init : Reachable initialState
  | next {s : AppState} (h : Reachable s) (e : Event) : Reachable (step s e)

/-- A sequence of turns: for each pair, the user types the string and the
fetch succeeds with the given response. -/
def runTurns (s : AppState) : List (String × ChatResponse) → AppState
  | [] => s
  | p :: rest => runTurns (handleSend { s with input := p.1 } (FetchOutcome.success p.2)) rest

/-- The two messages each successful turn contributes, in order. -/
def turnMessages : List (String × ChatResponse) → List Message
  | [] => []
  | p :: rest => ⟨Role.user, jsTrim p.1⟩ :: ⟨Role.assistant, p.2.reply⟩ :: turnMessages rest

/-- A sample state with a pending input, used to instantiate theorems. -/
def sampleState : AppState := { initialState with input := " hey " }

/-- C3: when the trimmed input is empty, handleSend is a no-op — no message
is appended, no request is sent, and every state field (messages, sessionId,
avatarState, affectState, debug) is unchanged. -/
theorem empty_input_rejected (s : AppState) (o : FetchOutcome)
    (h : jsTrim s.input = "") : handleSend s o = s ∧ requestOf s = none := by
  constructor
  · simp [handleSend, h]
  · simp [requestOf, h]

/-- C3 witness: a whitespace-only input is rejected without any state change. -/
theorem empty_input_rejected_witness :
    jsTrim "  " = "" ∧
      (handleSend { initialState with input := "  " } (FetchOutcome.failure "x") =
          { initialState with input := "  " } ∧
        requestOf { initialState with input := "  " } = none) :=
  ⟨by decide, empty_input_rejected { initialState with input := "  " }
    (FetchOutcome.failure "x") (by decide)⟩

/-- C5 counterexample: the claim requires an empty message history before any
turn, but the frontend seeds `messages` with a greeting, so the fresh history
is not empty. -/
theorem initial_history_nonempty : initialState.messages ≠ [] := by decide

/-- C5 amended: the fresh frontend state has the neutral affect estimate, the
default avatar label "welcoming", no session id, and a history of exactly the
one seeded assistant greeting message. -/
theorem initial_state_defaults :
    initialState.affectState = "emotionally neutral" ∧
      initialState.avatarState = "welcoming" ∧
      initialState.sessionId = none ∧
      initialState.messages = [greetingMessage] := by decide

/-- C7: whenever a request is issued, it carries exactly the current session
id (possibly none), the non-empty trimmed user message, and the current
affect and avatar state as hints. -/
theorem request_shape (s : AppState) (req : ChatRequest)
    (h : requestOf s = some req) :
    req.session_id = s.sessionId ∧ req.user_message = jsTrim s.input ∧
      req.user_message ≠ "" ∧ req.affect = s.affect ∧
      req.avatar_state = s.avatarState := by
  unfold requestOf at h
  split at h
  · exact absurd h (by simp)
  · next hne =>
      injection h with h
      subst h
      exact ⟨rfl, rfl, hne, rfl, rfl⟩

/-- C7 witness: the request issued from the sample state. -/
theorem request_shape_witness :
    requestOf sampleState =
        some ⟨none, "hey", "a little tense but open", "welcoming"⟩ ∧
      ("hey" : String) ≠ "" := by
  refine ⟨by decide, ?_⟩
  exact (request_shape sampleState
    ⟨none, "hey", "a little tense but open", "welcoming"⟩ (by decide)).2.2.1

/-- C8: the avatar image source is exactly "/avatars/" ++ avatarState ++ ".png". -/
theorem avatar_src_format (s : AppState) :
    currentAvatarSrc s = "/avatars/" ++ s.avatarState ++ ".png" := rfl

/-- C10: for a non-empty-after-trim input, the appended user message equals
the trimmed input, the request carries the same trimmed text, and the input
field is cleared to "" before the request is issued. -/
theorem trimmed_input_sent_and_cleared (s : AppState)
    (h : jsTrim s.input ≠ "") :
    (preFetchState s).messages = s.messages ++ [⟨Role.user, jsTrim s.input⟩] ∧
      (preFetchState s).input = "" ∧
      requestOf s = some ⟨s.sessionId, jsTrim s.input, s.affect, s.avatarState⟩ := by
  refine ⟨rfl, rfl, ?_⟩
  simp [requestOf, h]

/-- C10 witness: the sample state's input " hey " is trimmed to "hey",
appended, sent, and the field cleared. -/
theorem trimmed_input_sent_and_cleared_witness :
    jsTrim sampleState.input ≠ "" ∧
      ((preFetchState sampleState).messages =
          sampleState.messages ++ [⟨Role.user, jsTrim sampleState.input⟩] ∧
        (preFetchState sampleState).input = "" ∧
        requestOf sampleState =
          some ⟨sampleState.sessionId, jsTrim sampleState.input,
            sampleState.affect, sampleState.avatarState⟩) :=
  ⟨by decide, trimmed_input_sent_and_cleared sampleState (by decide)⟩

/-- C4 counterexample: on fetch failure the change to `messages` is not a
single appended assistant error bubble — the user message is appended too. -/
theorem failure_appends_user_message_too :
    (handleSend sampleState (FetchOutcome.failure "boom")).messages ≠
      sampleState.messages ++ [⟨Role.assistant, errorText "boom"⟩] := by decide

/-- C4 amended: on fetch failure, sessionId, avatarState, affectState and
debug are all unchanged; the history gains the user message followed by a
single assistant error bubble, and the input is cleared. -/
theorem failure_state_isolation (s : AppState) (err : String)
    (h : jsTrim s.input ≠ "") :
    (handleSend s (FetchOutcome.failure err)).sessionId = s.sessionId ∧
      (handleSend s (FetchOutcome.failure err)).avatarState = s.avatarState ∧
      (handleSend s (FetchOutcome.failure err)).affectState = s.affectState ∧
      (handleSend s (FetchOutcome.failure err)).debug = s.debug ∧
      (handleSend s (FetchOutcome.failure err)).messages =
        s.messages ++ [⟨Role.user, jsTrim s.input⟩, ⟨Role.assistant, errorText err⟩] ∧
      (handleSend s (FetchOutcome.failure err)).input = "" := by
  simp [handleSend, h, applyFailure, preFetchState]

/-- C4 witness: a failed turn from the sample state. -/
theorem failure_state_isolation_witness :
    jsTrim sampleState.input ≠ "" ∧
      ((handleSend sampleState (FetchOutcome.failure "boom")).sessionId = sampleState.sessionId ∧
        (handleSend sampleState (FetchOutcome.failure "boom")).avatarState = sampleState.avatarState ∧
        (handleSend sampleState (FetchOutcome.failure "boom")).affectState = sampleState.affectState ∧
        (handleSend sampleState (FetchOutcome.failure "boom")).debug = sampleState.debug ∧
        (handleSend sampleState (FetchOutcome.failure "boom")).messages =
          sampleState.messages ++
            [⟨Role.user, jsTrim sampleState.input⟩, ⟨Role.assistant, errorText "boom"⟩] ∧
        (handleSend sampleState (FetchOutcome.failure "boom")).input = "") :=
  ⟨by decide, failure_state_isolation sampleState "boom" (by decide)⟩

/-- C1 counterexample: the frontend stores any truthy avatar_state string
from the backend without validating it against AVATAR_STATES, so the state
after a turn can lie outside the candidate set. -/
theorem avatar_state_escapes_candidate_set :
    (handleSend sampleState
        (FetchOutcome.success ⟨some "s1", "ok", some "banana", none⟩)).avatarState ∉
      AVATAR_STATES := by decide

/-- C1 amended: after any turn the avatarState is in AVATAR_STATES provided
the previous value was in the set and the backend's avatar_state is either
falsy (previous value retained) or itself a member of the set; the frontend
performs no validation of its own. -/
theorem avatar_state_membership_preserved (s : AppState) (d : ChatResponse)
    (h1 : s.avatarState ∈ AVATAR_STATES)
    (h2 : jsTruthy d.avatar_state = true → d.avatar_state.getD "" ∈ AVATAR_STATES) :
    (handleSend s (FetchOutcome.success d)).avatarState ∈ AVATAR_STATES := by
  unfold handleSend
  split
  · exact h1
  · show (if jsTruthy d.avatar_state then d.avatar_state.getD "" else s.avatarState) ∈
      AVATAR_STATES
    by_cases hj : jsTruthy d.avatar_state
    · rw [if_pos hj]; exact h2 hj
    · rw [if_neg hj]; exact h1

/-- C1 witness: a turn whose response carries a member of the set. -/
theorem avatar_state_membership_preserved_witness :
    sampleState.avatarState ∈ AVATAR_STATES ∧
      (handleSend sampleState
          (FetchOutcome.success ⟨some "s1", "ok", some "listening", none⟩)).avatarState ∈
        AVATAR_STATES :=
  ⟨by decide, avatar_state_membership_preserved sampleState
    ⟨some "s1", "ok", some "listening", none⟩ (by decide) (by decide)⟩

/-- Messages accumulated by a run of successful turns, relative to any start
state, when every typed input is non-empty after trimming. -/
theorem runTurns_messages (L : List (String × ChatResponse)) :
    ∀ s : AppState, (∀ p ∈ L, jsTrim p.1 ≠ "") →
      (runTurns s L).messages = s.messages ++ turnMessages L := by
  induction L with
  | nil => intro s _; simp [runTurns, turnMessages]
  | cons p rest ih =>
      intro s h
      have hp : jsTrim p.1 ≠ "" := h p (List.mem_cons_self p rest)
      have hrest : ∀ q ∈ rest, jsTrim q.1 ≠ "" :=
        fun q hq => h q (List.mem_cons_of_mem p hq)
      simp only [runTurns]
      rw [ih _ hrest]
      simp [handleSend, hp, applySuccess, preFetchState, turnMessages]

/-- Each turn contributes exactly two messages. -/
theorem turnMessages_length (L : List (String × ChatResponse)) :
    (turnMessages L).length = 2 * L.length := by
  induction L with
  | nil => rfl
  | cons p rest ih =>
      simp [turnMessages, ih]
      omega

/-- C2 counterexample: after one successful turn the frontend history holds
3 messages (the seeded greeting plus the turn's two), not 2·1. -/
theorem history_length_not_two_per_turn :
    (runTurns initialState
        [("hello", ⟨some "s1", "ok", some "listening", none⟩)]).messages.length ≠ 2 * 1 := by
  decide

/-- C2 amended: after N successful turns the history is the seeded greeting
followed by, per turn in order, the trimmed user message then the assistant
reply; its length is 1 + 2·N. -/
theorem history_after_turns (L : List (String × ChatResponse))
    (h : ∀ p ∈ L, jsTrim p.1 ≠ "") :
    (runTurns initialState L).messages = greetingMessage :: turnMessages L ∧
      (runTurns initialState L).messages.length = 1 + 2 * L.length := by
  have hm := runTurns_messages L initialState h
  constructor
  · simpa [initialState] using hm
  · rw [hm]
    simp [initialState, turnMessages_length]
    omega

/-- C2 witness: one successful turn yields a history of length 3. -/
theorem history_after_turns_witness :
    (∀ p ∈ [("hello", (⟨some "s1", "ok", some "listening", none⟩ : ChatResponse))],
        jsTrim p.1 ≠ "") ∧
      (runTurns initialState
          [("hello", ⟨some "s1", "ok", some "listening", none⟩)]).messages.length =
        1 + 2 * 1 :=
  ⟨by decide, (history_after_turns
    [("hello", ⟨some "s1", "ok", some "listening", none⟩)] (by decide)).2⟩

/-- C6: session id threading — it starts as null, every issued request
carries the current sessionId, a successful turn overwrites it with the
backend's session_id, and no other event (failed turn, typing, avatar
button) changes it. -/
theorem session_id_threading :
    initialState.sessionId = none ∧
      (∀ s req, requestOf s = some req → req.session_id = s.sessionId) ∧
      (∀ s d, jsTrim s.input ≠ "" →
        (handleSend s (FetchOutcome.success d)).sessionId = d.session_id) ∧
      (∀ s err, (handleSend s (FetchOutcome.failure err)).sessionId = s.sessionId) ∧
      (∀ s t, (step s (Event.typeInput t)).sessionId = s.sessionId) ∧
      (∀ s i, (step s (Event.clickAvatar i)).sessionId = s.sessionId) := by
  refine ⟨rfl, ?_, ?_, ?_, fun s t => rfl, fun s i => rfl⟩
  · intro s req h
    unfold requestOf at h
    split at h
    · exact absurd h (by simp)
    · injection h with h
      subst h
      rfl
  · intro s d h
    simp [handleSend, h, applySuccess, preFetchState]
  · intro s err
    unfold handleSend
    split
    · rfl
    · rfl

/-- C6 witness: a successful turn from the sample state adopts the returned id. -/
theorem session_id_threading_witness :
    jsTrim sampleState.input ≠ "" ∧
      (handleSend sampleState
          (FetchOutcome.success ⟨some "abc", "ok", none, none⟩)).sessionId = some "abc" :=
  ⟨by decide, session_id_threading.2.2.1 sampleState
    ⟨some "abc", "ok", none, none⟩ (by decide)⟩

/-- C9: in every reachable state of the component, avatarState is a
non-empty string — it starts as "welcoming", the avatar buttons set only
entries of AVATAR_STATES, and a falsy backend avatar_state leaves the
previous value in place. -/
theorem avatarState_nonempty_invariant (s : AppState) (h : Reachable s) :
    s.avatarState ≠ "" := by
  induction h with
  | init => decide
  | next h e ih =>
      cases e with
      | typeInput t => exact ih
      | clickAvatar i =>
          have hall : ∀ j : Fin AVATAR_STATES.length, AVATAR_STATES.get j ≠ "" := by decide
          exact hall i
      | send o =>
          cases o with
          | success d =>
              show (handleSend _ (FetchOutcome.success d)).avatarState ≠ ""
              unfold handleSend
              split
              · exact ih
              · show (if jsTruthy d.avatar_state then d.avatar_state.getD "" else _) ≠ ""
                by_cases hj : jsTruthy d.avatar_state
                · rw [if_pos hj]
                  cases hd : d.avatar_state with
                  | none => rw [hd] at hj; simp [jsTruthy] at hj
                  | some a =>
                      rw [hd] at hj
                      simpa [jsTruthy] using hj
                · rw [if_neg hj]
                  exact ih
          | failure err =>
              show (handleSend _ (FetchOutcome.failure err)).avatarState ≠ ""
              unfold handleSend
              split
              · exact ih
              · exact ih

/-- C9 witness: the invariant at the initial state. -/
theorem avatarState_nonempty_invariant_witness :
    initialState.avatarState ≠ "" :=
  avatarState_nonempty_invariant initialState Reachable.init
